import Mathlib

/-!
Verification development for the pudeez-backend escrow reconciliation core.

The definitions below are a shallow embedding of the TypeScript source:

* `EscrowRecord`, `getEscrowById`, `applyStatusUpdate`, `updateEscrowStatus`
  embed the `escrows` table and the `Database` escrow methods of
  `database_handler.ts`.  The store is a list of rows; SQL `UPDATE ... WHERE
  escrowId = ?` is a map over the rows; `this.changes > 0` is the existence
  test.  TEXT timestamps are abstracted to `Nat` instants passed in as the
  current time (`new Date().toISOString()` at the call site); the TEXT
  `priceInSui` column is embedded as the rational number its decimal text
  denotes.
* `ChainEvent`, `recordOfInit`, `applyEvent` embed the four event handlers of
  `EscrowEventListener` in `escrow_handler.ts`.  `applyEvent` returns the new
  store together with the `EscrowStatusUpdate` notification that
  `notifyCallbacks` broadcasts; the source builds and broadcasts this update
  on every handled event.  Event payload strings (after the source's
  `vectorToString` decoding) are `String`s, and the integer string `price` /
  `amount` fields are embedded as their parsed `Int` values.
* `checkAssetInInventory`, `getItemCount` embed the two
  `SteamInventoryChecker` methods.  The outcome of the single `fetch` each
  method performs is an explicit `FetchOutcome` input: a rejected fetch
  (transport failure), or a reply with its `ok` flag, HTTP status and parsed
  body.  A thrown JS error is an `Except.error`.
* `isTransferred`, `verifyTransfer` embed the
  `GET /api/escrow/:escrowId/verify-transfer` route of the main router file:
  record lookup, the status guard (the route admits only the literal status
  string "in-progress"), the two oracle reads, and the count-difference
  decision rule.
* `getAllEscrowsAmount` embeds the numeric content of the
  `GET /api/escrow/getAllEscrows` amount formatting
  (`parseFloat(escrow.priceInSui)`), which reads the stored value back
  without rescaling it.

The `CHECK(status IN ...)` clause of one archived schema revision is not
modelled: the current route layer reads and the current listener writes the
status strings "initialized" and "deposited", which that clause would
forbid, so the live table cannot carry it; the status column is embedded as
a free `String`.
-/

/-- Row of the `escrows` table (interface `EscrowRecord` in
`database_handler.ts`).  Optional TEXT columns are `Option String`;
timestamps are abstract `Nat` instants; `priceInSui` is the rational value
of the stored decimal text. -/
structure EscrowRecord where
  escrowId : String
  buyerAddress : String
  sellerAddress : String
  buyerSteamId : Option String
  sellerSteamId : Option String
  assetId : String
  assetName : String
  assetAmount : Int
  appId : String
  classId : Option String
  instanceId : Option String
  tradeUrl : String
  priceInSui : ℚ
  initialSellerItemCount : Int
  initialBuyerItemCount : Int
  status : String
  transactionDigest : Option String
  blobId : Option String
  createdAt : Nat
  updatedAt : Nat
deriving DecidableEq

/-- The durable store: the rows of the `escrows` table in insertion order. -/
abbrev Store := List EscrowRecord

/-- Embeds `Database.getEscrowById` (`SELECT * FROM escrows WHERE escrowId = ?`,
first matching row or null). -/
def getEscrowById (escrowId : String) (s : Store) : Option EscrowRecord :=
  s.find? (fun r => r.escrowId == escrowId)

/-- Per-row effect of the SQL
`UPDATE escrows SET status = ?, updatedAt = ?,
 transactionDigest = COALESCE(?, transactionDigest) WHERE escrowId = ?`
inside `Database.updateEscrowStatus`. -/
def applyStatusUpdate (escrowId status : String) (txDigest : Option String)
    (now : Nat) (r : EscrowRecord) : EscrowRecord :=
  if r.escrowId == escrowId then
    { r with
      status := status
      updatedAt := now
      transactionDigest :=
        match txDigest with
        | some d => some d
        | none => r.transactionDigest }
  else r

/-- Embeds `Database.updateEscrowStatus`: runs the row update over the table
and resolves `this.changes > 0`. -/
def updateEscrowStatus (escrowId status : String) (txDigest : Option String)
    (now : Nat) (s : Store) : Store × Bool :=
  (s.map (applyStatusUpdate escrowId status txDigest now),
   s.any (fun r => r.escrowId == escrowId))

/-- Payload of an `EscrowInitialized` chain event after the source's
`vectorToString` decoding, together with the transaction digest
(`event.id.txDigest`).  `price` is the parsed value of the integer string
the chain emits (MIST, the smallest currency unit). -/
structure InitEventData where
  escrow_id : String
  buyer : String
  seller : String
  asset_id : String
  asset_name : String
  app_id : String
  icon_url : String
  trade_url : String
  price : Int
  txDigest : String
deriving DecidableEq

/-- The four chain event kinds consumed by `EscrowEventListener`, each with
its transaction digest. -/
inductive ChainEvent where
  | init (d : InitEventData)
  | dep (escrow_id buyer : String) (amount : Int) (txDigest : String)
  | claim (escrow_id seller : String) (amount : Int) (txDigest : String)
  | cancel (escrow_id buyer : String) (refund_amount : Int) (txDigest : String)
deriving DecidableEq

/-- The `EscrowStatusUpdate` notification object `notifyCallbacks`
broadcasts to every registered callback. -/
structure EscrowStatusUpdate where
  escrow_id : String
  buyer : String
  seller : String
  asset_id : String
  price : Int
  status : String
  steam_trade_completed : Option Bool
  transaction_digest : Option String
deriving DecidableEq

/-- The row `handleEscrowInitialized` inserts via `Database.addEscrow`:
fields copied from the event (with the source's fallback strings), Steam ids
and class/instance ids absent, `priceInSui` set to the event price divided
by `10^9` (the source's MIST-to-SUI conversion at ingestion), both baseline
item counts hardcoded to `0` — the source performs no inventory-oracle call
here — and status "initialized".  (The handler also sets an `iconUrl`
property, which `addEscrow` does not persist; it has no column.) -/
def recordOfInit (d : InitEventData) (now : Nat) : EscrowRecord :=
  { escrowId := d.escrow_id
    buyerAddress := d.buyer
    sellerAddress := d.seller
    buyerSteamId := none
    sellerSteamId := none
    assetId := d.asset_id
    assetName := if d.asset_name = "" then "Steam Asset" else d.asset_name
    assetAmount := 1
    appId := if d.app_id = "" then "730" else d.app_id
    classId := none
    instanceId := none
    tradeUrl := d.trade_url
    priceInSui := (d.price : ℚ) / 1000000000
    initialSellerItemCount := 0
    initialBuyerItemCount := 0
    status := "initialized"
    transactionDigest := some d.txDigest
    blobId := none
    createdAt := now
    updatedAt := now }

/-- Embeds one `EscrowEventListener` handler invocation: the store effect and
the notification passed to `notifyCallbacks`.  Faithful to the source:
`handleEscrowInitialized` inserts only when `getEscrowById` finds nothing;
the other three handlers call `updateEscrowStatus` with their fixed target
status whenever the record exists and do nothing to the store otherwise; all
four build the notification (enriched from the existing record where the
event lacks fields, with empty-string fallbacks) and always broadcast it. -/
def applyEvent (ev : ChainEvent) (now : Nat) (s : Store) :
    Store × EscrowStatusUpdate :=
  match ev with
  | .init d =>
      let upd : EscrowStatusUpdate :=
        { escrow_id := d.escrow_id, buyer := d.buyer, seller := d.seller
          asset_id := d.asset_id, price := d.price, status := "initialized"
          steam_trade_completed := none, transaction_digest := some d.txDigest }
      match getEscrowById d.escrow_id s with
      | some _ => (s, upd)
      | none => (s ++ [recordOfInit d now], upd)
  | .dep escrowId buyer amount dg =>
      let ex := getEscrowById escrowId s
      let upd : EscrowStatusUpdate :=
        { escrow_id := escrowId, buyer := buyer
          seller := (ex.map (fun r => r.sellerAddress)).getD ""
          asset_id := (ex.map (fun r => r.assetId)).getD ""
          price := amount, status := "deposited"
          steam_trade_completed := none, transaction_digest := some dg }
      match ex with
      | some _ => ((updateEscrowStatus escrowId "deposited" (some dg) now s).1, upd)
      | none => (s, upd)
  | .claim escrowId seller amount dg =>
      let ex := getEscrowById escrowId s
      let upd : EscrowStatusUpdate :=
        { escrow_id := escrowId
          buyer := (ex.map (fun r => r.buyerAddress)).getD ""
          seller := seller
          asset_id := (ex.map (fun r => r.assetId)).getD ""
          price := amount, status := "completed"
          steam_trade_completed := some true, transaction_digest := some dg }
      match ex with
      | some _ => ((updateEscrowStatus escrowId "completed" (some dg) now s).1, upd)
      | none => (s, upd)
  | .cancel escrowId buyer refund dg =>
      let ex := getEscrowById escrowId s
      let upd : EscrowStatusUpdate :=
        { escrow_id := escrowId, buyer := buyer
          seller := (ex.map (fun r => r.sellerAddress)).getD ""
          asset_id := (ex.map (fun r => r.assetId)).getD ""
          price := refund, status := "cancelled"
          steam_trade_completed := some false, transaction_digest := some dg }
      match ex with
      | some _ => ((updateEscrowStatus escrowId "cancelled" (some dg) now s).1, upd)
      | none => (s, upd)

/-- Store effect of delivering a sequence of (event, observation time) pairs
in order, as the cursorless polling loop does: each poll re-delivers the
recent events of a kind, so one logical event can appear several times in
the delivered sequence. -/
def processEvents (evs : List (ChainEvent × Nat)) (s : Store) : Store :=
  evs.foldl (fun st p => (applyEvent p.1 p.2 st).1) s

/-- Embeds `notifyCallbacks` running after a handler: each registered
callback receives the notification, a throwing callback (modelled as a
`none` result) is caught individually by the source's per-callback
try/catch, and the store result of the handler is whatever it already was. -/
def runWithCallbacks (cbs : List (EscrowStatusUpdate → Option Unit))
    (ev : ChainEvent) (now : Nat) (s : Store) : Store × List (Option Unit) :=
  let p := applyEvent ev now s
  (p.1, cbs.map (fun cb => cb p.2))

/-- One Steam inventory asset as the route code reads it
(`asset.assetid`, `asset.classid`, `asset.instanceid`). -/
structure SteamAsset where
  assetid : String
  classid : String
  instanceid : String
deriving DecidableEq

/-- Parsed body of a Steam inventory reply: `data.response?.assets`,
absent when the reply carries no asset array. -/
structure SteamBody where
  assets : Option (List SteamAsset)
deriving DecidableEq

/-- Outcome of the single `fetch` in each `SteamInventoryChecker` method:
either the fetch itself rejects (transport failure), or a reply arrives
with its `ok` flag (false on any non-2xx status, auth failures included),
HTTP status code and parsed body. -/
inductive FetchOutcome where
  | netError (msg : String)
  | reply (ok : Bool) (statusCode : Nat) (body : SteamBody)
deriving DecidableEq

/-- Message of the error thrown on a non-ok Steam reply. -/
def steamApiErrorMsg (statusCode : Nat) : String :=
  "Steam API error: " ++ toString statusCode

/-- Embeds `SteamInventoryChecker.checkAssetInInventory`: transport failure
rethrown, non-ok reply throws, missing asset array yields false, otherwise
presence of the asset id in the array. -/
def checkAssetInInventory (f : FetchOutcome) (assetId : String) :
    Except String Bool :=
  match f with
  | .netError m => .error m
  | .reply ok statusCode body =>
      if ok then
        match body.assets with
        | none => .ok false
        | some l => .ok (l.any (fun a => a.assetid == assetId))
      else .error (steamApiErrorMsg statusCode)

/-- Embeds `SteamInventoryChecker.getItemCount`: transport failure rethrown,
non-ok reply throws, missing asset array yields 0, otherwise the number of
assets matching the class and instance ids. -/
def getItemCount (f : FetchOutcome) (classId instanceId : String) :
    Except String Nat :=
  match f with
  | .netError m => .error m
  | .reply ok statusCode body =>
      if ok then
        match body.assets with
        | none => .ok 0
        | some l =>
            .ok ((l.filter
              (fun a => a.classid == classId && a.instanceid == instanceId)).length)
      else .error (steamApiErrorMsg statusCode)

/-- The verify-transfer decision rule of the route, as a pure function of
the stored baseline counts and the two current oracle counts:
`sellerCountDecrease >= 1 && buyerCountIncrease >= 1 &&
 buyerCountIncrease >= sellerCountDecrease`. -/
def isTransferred (initialSeller initialBuyer sellerCurrent buyerCurrent : Int) :
    Bool :=
  let sellerCountDecrease := initialSeller - sellerCurrent
  let buyerCountIncrease := buyerCurrent - initialBuyer
  decide (1 ≤ sellerCountDecrease) && decide (1 ≤ buyerCountIncrease) &&
    decide (sellerCountDecrease ≤ buyerCountIncrease)

/-- Response shapes of `GET /api/escrow/:escrowId/verify-transfer`:
404 (unknown id), 400 with the current status (guard failure), 503 (a Steam
read threw), or the 200 verification payload with the decision and both
current counts. -/
inductive VerifyOutcome where
  | notFound
  | invalidState (currentStatus : String)
  | steamUnavailable
  | verified (transferredFlag : Bool) (sellerCurrent buyerCurrent : Nat)
deriving DecidableEq

/-- Embeds the verify-transfer route from the record lookup on: 404 when the
record is absent; the guard admits only the literal status "in-progress" and
otherwise answers 400 with the current status; then the seller read and the
buyer read (each a `getItemCount` call on its own fetch outcome, filtered by
the record's class/instance ids with empty-string fallbacks), any throw
giving 503; finally the decision rule applied to the stored baselines and
the two current counts. -/
def verifyTransfer (s : Store) (escrowId : String)
    (sellerFetch buyerFetch : FetchOutcome) : VerifyOutcome :=
  match getEscrowById escrowId s with
  | none => .notFound
  | some e =>
      if e.status = "in-progress" then
        match getItemCount sellerFetch (e.classId.getD "") (e.instanceId.getD "") with
        | .error _ => .steamUnavailable
        | .ok sellerCurrent =>
            match getItemCount buyerFetch (e.classId.getD "") (e.instanceId.getD "") with
            | .error _ => .steamUnavailable
            | .ok buyerCurrent =>
                .verified
                  (isTransferred e.initialSellerItemCount e.initialBuyerItemCount
                    (sellerCurrent : Int) (buyerCurrent : Int))
                  sellerCurrent buyerCurrent
      else .invalidState e.status

/-- Discriminates the 200 verification payload (the only outcome carrying a
transferred boolean) from the error responses of the verify-transfer route. -/
def isVerified : VerifyOutcome → Bool
  | .verified _ _ _ => true
  | _ => false

/-- Numeric content of the `GET /api/escrow/getAllEscrows` amount field:
`parseFloat(escrow.priceInSui)` reads the stored decimal text back as the
value it denotes; no rescaling is applied on the outward read. -/
def getAllEscrowsAmount (r : EscrowRecord) : ℚ :=
  r.priceInSui

/-- Concrete escrow row used by witnesses and counterexamples. -/
def sampleRecord (escrowId status : String) (initS initB : Int) : EscrowRecord :=
  { escrowId := escrowId
    buyerAddress := "0xbuyer"
    sellerAddress := "0xseller"
    buyerSteamId := some "76561198000000001"
    sellerSteamId := some "76561198000000002"
    assetId := "40591358163"
    assetName := "AK-47"
    assetAmount := 1
    appId := "730"
    classId := some "310776"
    instanceId := some "302028390"
    tradeUrl := "https://steamcommunity.com/tradeoffer/new/"
    priceInSui := 2
    initialSellerItemCount := initS
    initialBuyerItemCount := initB
    status := status
    transactionDigest := some "digest0"
    blobId := none
    createdAt := 0
    updatedAt := 0 }

/-- Concrete `EscrowInitialized` payload used by witnesses and
counterexamples. -/
def sampleInit : InitEventData :=
  { escrow_id := "0xescrow1"
    buyer := "0xbuyer"
    seller := "0xseller"
    asset_id := "40591358163"
    asset_name := "AK-47"
    app_id := "730"
    icon_url := "icon"
    trade_url := "https://steamcommunity.com/tradeoffer/new/"
    price := 1500000000
    txDigest := "digest1" }

/-- Steam reply holding `n` copies of the class/instance pair
("310776", "302028390") that `sampleRecord` carries. -/
def sampleFetch (n : Nat) : FetchOutcome :=
  .reply true 200 ⟨some (List.replicate n ⟨"40591358163", "310776", "302028390"⟩)⟩

/-! ### Helper lemmas about the store operations -/

theorem applyStatusUpdate_escrowId (id st : String) (txd : Option String)
    (now : Nat) (r : EscrowRecord) :
    (applyStatusUpdate id st txd now r).escrowId = r.escrowId := by
  unfold applyStatusUpdate
  split <;> rfl

theorem applyStatusUpdate_idem (id st : String) (txd : Option String)
    (now : Nat) (r : EscrowRecord) :
    applyStatusUpdate id st txd now (applyStatusUpdate id st txd now r) =
      applyStatusUpdate id st txd now r := by
  rcases txd with _ | d <;> by_cases h : r.escrowId == id <;>
    simp [applyStatusUpdate, h]

theorem getEscrowById_map_update (qid id st : String) (txd : Option String)
    (now : Nat) (s : Store) :
    getEscrowById qid (s.map (applyStatusUpdate id st txd now)) =
      (getEscrowById qid s).map (applyStatusUpdate id st txd now) := by
  unfold getEscrowById
  rw [List.find?_map]
  have h : ((fun r => r.escrowId == qid) ∘ applyStatusUpdate id st txd now) =
      (fun r : EscrowRecord => r.escrowId == qid) := by
    funext r
    simp [Function.comp, applyStatusUpdate_escrowId]
  rw [h]

theorem find?_append_of_none {α : Type} {p : α → Bool} {s : List α}
    (h : s.find? p = none) (t : List α) : (s ++ t).find? p = t.find? p := by
  induction s with
  | nil => simp
  | cons a s ih =>
    cases hpa : p a with
    | true => simp [List.find?_cons_of_pos _ hpa] at h
    | false =>
      rw [List.find?_cons_of_neg _ (by simp [hpa])] at h
      rw [List.cons_append, List.find?_cons_of_neg _ (by simp [hpa])]
      exact ih h

theorem map_update_idem (id st : String) (txd : Option String) (now : Nat)
    (s : Store) :
    (s.map (applyStatusUpdate id st txd now)).map (applyStatusUpdate id st txd now) =
      s.map (applyStatusUpdate id st txd now) := by
  induction s with
  | nil => rfl
  | cons a s ih => simp [applyStatusUpdate_idem, ih]

theorem countP_map_update (qid id st : String) (txd : Option String) (now : Nat)
    (s : Store) :
    (s.map (applyStatusUpdate id st txd now)).countP (fun r => r.escrowId == qid) =
      s.countP (fun r => r.escrowId == qid) := by
  induction s with
  | nil => rfl
  | cons a s ih =>
    simp [List.countP_cons, applyStatusUpdate_escrowId, ih]

theorem countP_eq_zero_of_getEscrowById_none {qid : String} {s : Store}
    (h : getEscrowById qid s = none) :
    s.countP (fun r => r.escrowId == qid) = 0 := by
  rw [List.countP_eq_zero]
  exact List.find?_eq_none.1 h

theorem countP_escrowId_le_one (s : Store) (id : String)
    (h : (s.map (fun r => r.escrowId)).Nodup) :
    s.countP (fun r => r.escrowId == id) ≤ 1 := by
  induction s with
  | nil => simp
  | cons a s ih =>
    simp only [List.map_cons, List.nodup_cons] at h
    rcases h with ⟨ha, hs⟩
    rw [List.countP_cons]
    by_cases hpa : a.escrowId == id
    · have hz : s.countP (fun r => r.escrowId == id) = 0 := by
        rw [List.countP_eq_zero]
        intro r hr hpr
        apply ha
        rw [List.mem_map]
        refine ⟨r, hr, ?_⟩
        have h1 : r.escrowId = id := by simpa using hpr
        have h2 : a.escrowId = id := by simpa using hpa
        rw [h1, h2]
      simp [hpa, hz]
    · simpa [hpa] using ih hs

/-! ### Claim theorems -/

/-- C1: for every escrow record that passes the verification guard (record
found, status admitting verification) and every pair of current oracle
counts, the route reports exactly the pure decision
`isTransferred`; `isTransferred` is true iff
`sellerDecrease >= 1`, `buyerIncrease >= 1` and
`buyerIncrease >= sellerDecrease`; and at initial counts (3, 0) with current
counts (2, 1) the decision is transferred = true. -/
theorem C1_verifyTransfer_decision_rule :
    (∀ (s : Store) (escrowId : String) (e : EscrowRecord)
        (sellerFetch buyerFetch : FetchOutcome) (sellerCurrent buyerCurrent : Nat),
        getEscrowById escrowId s = some e →
        e.status = "in-progress" →
        getItemCount sellerFetch (e.classId.getD "") (e.instanceId.getD "") =
          .ok sellerCurrent →
        getItemCount buyerFetch (e.classId.getD "") (e.instanceId.getD "") =
          .ok buyerCurrent →
        verifyTransfer s escrowId sellerFetch buyerFetch =
          .verified
            (isTransferred e.initialSellerItemCount e.initialBuyerItemCount
              (sellerCurrent : Int) (buyerCurrent : Int))
            sellerCurrent buyerCurrent) ∧
    (∀ iS iB cS cB : Int,
        isTransferred iS iB cS cB = true ↔
          iS - cS ≥ 1 ∧ cB - iB ≥ 1 ∧ cB - iB ≥ iS - cS) ∧
    isTransferred 3 0 2 1 = true := by
  refine ⟨?_, ?_, by decide⟩
  · intro s id e sf bf sc bc hget hst hsc hbc
    simp [verifyTransfer, hget, hst, hsc, hbc]
  · intro iS iB cS cB
    simp only [isTransferred, Bool.and_eq_true, decide_eq_true_eq]
    omega

/-- Witness for C1 at a concrete store, record and pair of Steam replies:
baselines (3, 0), current counts (2, 1), decision transferred. -/
theorem C1_verifyTransfer_decision_rule_witness :
    getEscrowById "E1" [sampleRecord "E1" "in-progress" 3 0] =
      some (sampleRecord "E1" "in-progress" 3 0) ∧
    (sampleRecord "E1" "in-progress" 3 0).status = "in-progress" ∧
    verifyTransfer [sampleRecord "E1" "in-progress" 3 0] "E1"
        (sampleFetch 2) (sampleFetch 1) =
      .verified
        (isTransferred (sampleRecord "E1" "in-progress" 3 0).initialSellerItemCount
          (sampleRecord "E1" "in-progress" 3 0).initialBuyerItemCount
          ((2 : Nat) : Int) ((1 : Nat) : Int)) 2 1 := by
  refine ⟨rfl, rfl, ?_⟩
  exact C1_verifyTransfer_decision_rule.1 [sampleRecord "E1" "in-progress" 3 0]
    "E1" (sampleRecord "E1" "in-progress" 3 0) (sampleFetch 2) (sampleFetch 1)
    2 1 rfl rfl rfl rfl

/-- C8: the oracle reads answer with a thrown error on a rejected fetch
(transport failure) and on any non-ok reply (auth errors included), never a
silent false/zero there; a false/zero answer arises only from an ok reply
whose asset array omits the queried item, so callers can distinguish
confirmed absence from unavailability. -/
theorem C8_oracle_error_results :
    ∀ (assetId classId instanceId m : String) (statusCode : Nat) (body : SteamBody),
      checkAssetInInventory (.netError m) assetId = .error m ∧
      getItemCount (.netError m) classId instanceId = .error m ∧
      checkAssetInInventory (.reply false statusCode body) assetId =
        .error (steamApiErrorMsg statusCode) ∧
      getItemCount (.reply false statusCode body) classId instanceId =
        .error (steamApiErrorMsg statusCode) ∧
      checkAssetInInventory (.reply true statusCode body) assetId =
        .ok ((body.assets.getD []).any (fun a => a.assetid == assetId)) ∧
      getItemCount (.reply true statusCode body) classId instanceId =
        .ok ((body.assets.getD []).filter
          (fun a => a.classid == classId && a.instanceid == instanceId)).length := by
  intro aid cid iid m st body
  refine ⟨rfl, rfl, rfl, rfl, ?_, ?_⟩ <;> rcases body with ⟨_ | l⟩ <;> rfl

theorem applyStatusUpdate_reapply (escrowId st dg : String) (t1 t2 : Nat)
    (r : EscrowRecord) :
    applyStatusUpdate escrowId st (some dg) t2
        (applyStatusUpdate escrowId st (some dg) t1 r) =
      if (applyStatusUpdate escrowId st (some dg) t1 r).escrowId == escrowId then
        { applyStatusUpdate escrowId st (some dg) t1 r with updatedAt := t2 }
      else applyStatusUpdate escrowId st (some dg) t1 r := by
  by_cases h : r.escrowId == escrowId <;> simp [applyStatusUpdate, h]

theorem map_update_refresh (escrowId st dg : String) (t1 t2 : Nat) (s : Store) :
    (s.map (applyStatusUpdate escrowId st (some dg) t1)).map
        (applyStatusUpdate escrowId st (some dg) t2) =
      (s.map (applyStatusUpdate escrowId st (some dg) t1)).map
        (fun r => if r.escrowId == escrowId then { r with updatedAt := t2 }
          else r) := by
  rw [List.map_map, List.map_map]
  apply List.map_congr_left
  intro a _
  simp only [Function.comp]
  exact applyStatusUpdate_reapply escrowId st dg t1 t2 a

/-- Counterexample to C5: re-delivering the same `PaymentDeposited` event at
a later observation instant — in the source, on the next poll tick about ten
seconds later — does not leave the store in the same state: the matched
record's `updatedAt` is rewritten from 7 to 8 by the second delivery, so
applying an event twice after its effect is applied is not a no-op on the
store. -/
theorem C5_redelivery_changes_store_counterexample :
    ((applyEvent (.dep "E1" "0xbuyer" 5 "digest2") 7
        [sampleRecord "E1" "in-progress" 3 0]).1.map (fun r => r.updatedAt)) =
      [7] ∧
    ((applyEvent (.dep "E1" "0xbuyer" 5 "digest2") 8
        (applyEvent (.dep "E1" "0xbuyer" 5 "digest2") 7
          [sampleRecord "E1" "in-progress" 3 0]).1).1.map
        (fun r => r.updatedAt)) = [8] ∧
    (((8 : Nat) == 7) = false) := by
  exact ⟨rfl, rfl, rfl⟩

/-- C5 as amended: delivering the same `EscrowInitialized` event twice
produces exactly one record with its id and the second delivery leaves the
store untouched at any pair of observation times, the insert being guarded
by the existence check; re-delivering any chain event right after its effect
is applied at the same observation instant is a no-op on the store; and
re-delivering a deposit, claim or cancel event at a later instant is never
an error and creates no duplicate — it leaves every row unchanged except
that the matched record's `updatedAt` is refreshed to the later instant
(status and transactionDigest already carry the event's values). -/
theorem C5_duplicate_event_noop_amended :
    (∀ (d : InitEventData) (now1 now2 : Nat) (s : Store),
        getEscrowById d.escrow_id s = none →
        (applyEvent (.init d) now2 (applyEvent (.init d) now1 s).1).1 =
          (applyEvent (.init d) now1 s).1 ∧
        ((applyEvent (.init d) now1 s).1.countP
          (fun r => r.escrowId == d.escrow_id)) = 1) ∧
    (∀ (ev : ChainEvent) (now : Nat) (s : Store),
        (applyEvent ev now (applyEvent ev now s).1).1 = (applyEvent ev now s).1) ∧
    (∀ (escrowId buyer : String) (amount : Int) (dg : String) (t1 t2 : Nat)
        (s : Store),
        (applyEvent (.dep escrowId buyer amount dg) t2
            (applyEvent (.dep escrowId buyer amount dg) t1 s).1).1 =
          ((applyEvent (.dep escrowId buyer amount dg) t1 s).1).map
            (fun r => if r.escrowId == escrowId then { r with updatedAt := t2 }
              else r)) ∧
    (∀ (escrowId seller : String) (amount : Int) (dg : String) (t1 t2 : Nat)
        (s : Store),
        (applyEvent (.claim escrowId seller amount dg) t2
            (applyEvent (.claim escrowId seller amount dg) t1 s).1).1 =
          ((applyEvent (.claim escrowId seller amount dg) t1 s).1).map
            (fun r => if r.escrowId == escrowId then { r with updatedAt := t2 }
              else r)) ∧
    (∀ (escrowId buyer : String) (refund : Int) (dg : String) (t1 t2 : Nat)
        (s : Store),
        (applyEvent (.cancel escrowId buyer refund dg) t2
            (applyEvent (.cancel escrowId buyer refund dg) t1 s).1).1 =
          ((applyEvent (.cancel escrowId buyer refund dg) t1 s).1).map
            (fun r => if r.escrowId == escrowId then { r with updatedAt := t2 }
              else r)) := by
  have hfind : ∀ (d : InitEventData) (now1 : Nat) (s : Store),
      getEscrowById d.escrow_id s = none →
      getEscrowById d.escrow_id (s ++ [recordOfInit d now1]) =
        some (recordOfInit d now1) := by
    intro d now1 s h
    unfold getEscrowById at h ⊢
    rw [find?_append_of_none h]
    exact List.find?_cons_of_pos _ (by simp [recordOfInit])
  have hnone_map : ∀ (escrowId : String) (t2 : Nat) (s : Store),
      getEscrowById escrowId s = none →
      s.map (fun r => if r.escrowId == escrowId then { r with updatedAt := t2 }
        else r) = s := by
    intro escrowId t2 s hg
    conv_rhs => rw [← List.map_id s]
    apply List.map_congr_left
    intro r hr
    have hf : (r.escrowId == escrowId) = false := by
      have h0 := List.find?_eq_none.1
        (show s.find? (fun x => x.escrowId == escrowId) = none from hg) r hr
      simpa using h0
    simp [hf]
  refine ⟨?_, ?_, ?_, ?_, ?_⟩
  · intro d now1 now2 s h
    have hs1 : (applyEvent (.init d) now1 s).1 = s ++ [recordOfInit d now1] := by
      simp [applyEvent, h]
    constructor
    · rw [hs1]
      simp [applyEvent, hfind d now1 s h]
    · rw [hs1, List.countP_append, countP_eq_zero_of_getEscrowById_none h]
      simp [List.countP_cons, recordOfInit]
  · intro ev now s
    cases ev with
    | init d =>
      cases hg : getEscrowById d.escrow_id s with
      | none =>
        have hs1 : (applyEvent (.init d) now s).1 = s ++ [recordOfInit d now] := by
          simp [applyEvent, hg]
        rw [hs1]
        simp [applyEvent, hfind d now s hg]
      | some r => simp [applyEvent, hg]
    | dep escrowId buyer amount dg =>
      cases hg : getEscrowById escrowId s with
      | none => simp [applyEvent, hg]
      | some r =>
        have h1 : (applyEvent (.dep escrowId buyer amount dg) now s).1 =
            s.map (applyStatusUpdate escrowId "deposited" (some dg) now) := by
          simp [applyEvent, hg, updateEscrowStatus]
        have h2 : getEscrowById escrowId
            (s.map (applyStatusUpdate escrowId "deposited" (some dg) now)) =
            some (applyStatusUpdate escrowId "deposited" (some dg) now r) := by
          rw [getEscrowById_map_update, hg]
          rfl
        rw [h1]
        have h3 := map_update_idem escrowId "deposited" (some dg) now s
        simp [applyEvent, h2, updateEscrowStatus, h3]
    | claim escrowId seller amount dg =>
      cases hg : getEscrowById escrowId s with
      | none => simp [applyEvent, hg]
      | some r =>
        have h1 : (applyEvent (.claim escrowId seller amount dg) now s).1 =
            s.map (applyStatusUpdate escrowId "completed" (some dg) now) := by
          simp [applyEvent, hg, updateEscrowStatus]
        have h2 : getEscrowById escrowId
            (s.map (applyStatusUpdate escrowId "completed" (some dg) now)) =
            some (applyStatusUpdate escrowId "completed" (some dg) now r) := by
          rw [getEscrowById_map_update, hg]
          rfl
        rw [h1]
        have h3 := map_update_idem escrowId "completed" (some dg) now s
        simp [applyEvent, h2, updateEscrowStatus, h3]
    | cancel escrowId buyer refund dg =>
      cases hg : getEscrowById escrowId s with
      | none => simp [applyEvent, hg]
      | some r =>
        have h1 : (applyEvent (.cancel escrowId buyer refund dg) now s).1 =
            s.map (applyStatusUpdate escrowId "cancelled" (some dg) now) := by
          simp [applyEvent, hg, updateEscrowStatus]
        have h2 : getEscrowById escrowId
            (s.map (applyStatusUpdate escrowId "cancelled" (some dg) now)) =
            some (applyStatusUpdate escrowId "cancelled" (some dg) now r) := by
          rw [getEscrowById_map_update, hg]
          rfl
        rw [h1]
        have h3 := map_update_idem escrowId "cancelled" (some dg) now s
        simp [applyEvent, h2, updateEscrowStatus, h3]
  · intro escrowId buyer amount dg t1 t2 s
    cases hg : getEscrowById escrowId s with
    | none =>
      have h1 : (applyEvent (.dep escrowId buyer amount dg) t1 s).1 = s := by
        simp [applyEvent, hg]
      rw [h1, hnone_map escrowId t2 s hg]
      simp [applyEvent, hg]
    | some r =>
      have h1 : (applyEvent (.dep escrowId buyer amount dg) t1 s).1 =
          s.map (applyStatusUpdate escrowId "deposited" (some dg) t1) := by
        simp [applyEvent, hg, updateEscrowStatus]
      have h2 : getEscrowById escrowId
          (s.map (applyStatusUpdate escrowId "deposited" (some dg) t1)) =
          some (applyStatusUpdate escrowId "deposited" (some dg) t1 r) := by
        rw [getEscrowById_map_update, hg]
        rfl
      have h3 : (applyEvent (.dep escrowId buyer amount dg) t2
          (s.map (applyStatusUpdate escrowId "deposited" (some dg) t1))).1 =
          (s.map (applyStatusUpdate escrowId "deposited" (some dg) t1)).map
            (applyStatusUpdate escrowId "deposited" (some dg) t2) := by
        simp [applyEvent, h2, updateEscrowStatus]
      rw [h1, h3]
      exact map_update_refresh escrowId "deposited" dg t1 t2 s
  · intro escrowId seller amount dg t1 t2 s
    cases hg : getEscrowById escrowId s with
    | none =>
      have h1 : (applyEvent (.claim escrowId seller amount dg) t1 s).1 = s := by
        simp [applyEvent, hg]
      rw [h1, hnone_map escrowId t2 s hg]
      simp [applyEvent, hg]
    | some r =>
      have h1 : (applyEvent (.claim escrowId seller amount dg) t1 s).1 =
          s.map (applyStatusUpdate escrowId "completed" (some dg) t1) := by
        simp [applyEvent, hg, updateEscrowStatus]
      have h2 : getEscrowById escrowId
          (s.map (applyStatusUpdate escrowId "completed" (some dg) t1)) =
          some (applyStatusUpdate escrowId "completed" (some dg) t1 r) := by
        rw [getEscrowById_map_update, hg]
        rfl
      have h3 : (applyEvent (.claim escrowId seller amount dg) t2
          (s.map (applyStatusUpdate escrowId "completed" (some dg) t1))).1 =
          (s.map (applyStatusUpdate escrowId "completed" (some dg) t1)).map
            (applyStatusUpdate escrowId "completed" (some dg) t2) := by
        simp [applyEvent, h2, updateEscrowStatus]
      rw [h1, h3]
      exact map_update_refresh escrowId "completed" dg t1 t2 s
  · intro escrowId buyer refund dg t1 t2 s
    cases hg : getEscrowById escrowId s with
    | none =>
      have h1 : (applyEvent (.cancel escrowId buyer refund dg) t1 s).1 = s := by
        simp [applyEvent, hg]
      rw [h1, hnone_map escrowId t2 s hg]
      simp [applyEvent, hg]
    | some r =>
      have h1 : (applyEvent (.cancel escrowId buyer refund dg) t1 s).1 =
          s.map (applyStatusUpdate escrowId "cancelled" (some dg) t1) := by
        simp [applyEvent, hg, updateEscrowStatus]
      have h2 : getEscrowById escrowId
          (s.map (applyStatusUpdate escrowId "cancelled" (some dg) t1)) =
          some (applyStatusUpdate escrowId "cancelled" (some dg) t1 r) := by
        rw [getEscrowById_map_update, hg]
        rfl
      have h3 : (applyEvent (.cancel escrowId buyer refund dg) t2
          (s.map (applyStatusUpdate escrowId "cancelled" (some dg) t1))).1 =
          (s.map (applyStatusUpdate escrowId "cancelled" (some dg) t1)).map
            (applyStatusUpdate escrowId "cancelled" (some dg) t2) := by
        simp [applyEvent, h2, updateEscrowStatus]
      rw [h1, h3]
      exact map_update_refresh escrowId "cancelled" dg t1 t2 s

/-- Witness for the amended C5: the concrete `EscrowInitialized` payload
delivered twice into an empty store leaves exactly one record, the second
delivery changing nothing. -/
theorem C5_duplicate_event_noop_amended_witness :
    getEscrowById sampleInit.escrow_id ([] : Store) = none ∧
    (applyEvent (.init sampleInit) 1 (applyEvent (.init sampleInit) 0 []).1).1 =
      (applyEvent (.init sampleInit) 0 []).1 ∧
    ((applyEvent (.init sampleInit) 0 []).1.countP
      (fun r => r.escrowId == sampleInit.escrow_id)) = 1 := by
  refine ⟨rfl, ?_, ?_⟩
  · exact (C5_duplicate_event_noop_amended.1 sampleInit 0 1 [] rfl).1
  · exact (C5_duplicate_event_noop_amended.1 sampleInit 0 1 [] rfl).2

theorem beq_of_getEscrowById_some {escrowId : String} {s : Store}
    {r : EscrowRecord} (h : getEscrowById escrowId s = some r) :
    (r.escrowId == escrowId) = true := by
  have h' : s.find? (fun x => x.escrowId == escrowId) = some r := h
  have h2 := List.find?_some h'
  simpa using h2

theorem getEscrowById_append_record (d : InitEventData) (now : Nat) (s : Store)
    (h : getEscrowById d.escrow_id s = none) :
    getEscrowById d.escrow_id (s ++ [recordOfInit d now]) =
      some (recordOfInit d now) := by
  unfold getEscrowById at h ⊢
  rw [find?_append_of_none h]
  exact List.find?_cons_of_pos _ (by simp [recordOfInit])

/-- C7: a `PaymentDeposited` event observed before the `EscrowInitialized`
event of the same id is not applied on first delivery (the record is
absent), but the cursorless poll re-delivers it on a later reconciliation
pass; after the delivery sequence deposit, init, re-delivered deposit, the
store holds exactly one record for the id and its status is "deposited". -/
theorem C7_out_of_order_deposit :
    ∀ (d : InitEventData) (buyer : String) (amount : Int) (dg : String)
      (t1 t2 t3 : Nat) (s : Store),
      getEscrowById d.escrow_id s = none →
      (getEscrowById d.escrow_id
        (processEvents [(.dep d.escrow_id buyer amount dg, t1),
                        (.init d, t2),
                        (.dep d.escrow_id buyer amount dg, t3)] s)).map
        (fun r => r.status) = some "deposited" ∧
      (processEvents [(.dep d.escrow_id buyer amount dg, t1),
                      (.init d, t2),
                      (.dep d.escrow_id buyer amount dg, t3)] s).countP
        (fun r => r.escrowId == d.escrow_id) = 1 := by
  intro d buyer amount dg t1 t2 t3 s h
  have e1 : (applyEvent (.dep d.escrow_id buyer amount dg) t1 s).1 = s := by
    simp [applyEvent, h]
  have e2 : (applyEvent (.init d) t2 s).1 = s ++ [recordOfInit d t2] := by
    simp [applyEvent, h]
  have hf : getEscrowById d.escrow_id (s ++ [recordOfInit d t2]) =
      some (recordOfInit d t2) := getEscrowById_append_record d t2 s h
  have e3 : (applyEvent (.dep d.escrow_id buyer amount dg) t3
      (s ++ [recordOfInit d t2])).1 =
      (s ++ [recordOfInit d t2]).map
        (applyStatusUpdate d.escrow_id "deposited" (some dg) t3) := by
    simp [applyEvent, hf, updateEscrowStatus]
  have hfinal : processEvents [(.dep d.escrow_id buyer amount dg, t1),
      (.init d, t2), (.dep d.escrow_id buyer amount dg, t3)] s =
      (s ++ [recordOfInit d t2]).map
        (applyStatusUpdate d.escrow_id "deposited" (some dg) t3) := by
    simp only [processEvents, List.foldl]
    rw [e1, e2, e3]
  constructor
  · rw [hfinal, getEscrowById_map_update, hf]
    simp [applyStatusUpdate, recordOfInit]
  · rw [hfinal, countP_map_update, List.countP_append,
      countP_eq_zero_of_getEscrowById_none h]
    simp [List.countP_cons, recordOfInit]

/-- Witness for C7: the concrete deposit observed before its init on an
empty store ends, after re-delivery, in status "deposited". -/
theorem C7_out_of_order_deposit_witness :
    getEscrowById sampleInit.escrow_id ([] : Store) = none ∧
    (getEscrowById sampleInit.escrow_id
      (processEvents [(.dep sampleInit.escrow_id "0xbuyer" 1500000000 "digest2", 1),
                      (.init sampleInit, 2),
                      (.dep sampleInit.escrow_id "0xbuyer" 1500000000 "digest2", 3)]
        [])).map (fun r => r.status) = some "deposited" := by
  exact ⟨rfl, (C7_out_of_order_deposit sampleInit "0xbuyer" 1500000000 "digest2"
    1 2 3 [] rfl).1⟩

/-- Counterexample to C2: a record already in the terminal status
"completed" is moved back to "deposited" by a later (for instance
re-delivered) `PaymentDeposited` event — the stored status is not left
unchanged once terminal. -/
theorem C2_terminal_status_overwritten_counterexample :
    ((applyEvent (.dep "E1" "0xbuyer" 5 "digest2") 7
        [sampleRecord "E1" "completed" 5 0]).1.map (fun r => r.status)) =
      ["deposited"] ∧
    (("deposited" : String) == "completed") = false := by
  exact ⟨rfl, rfl⟩

/-- C2 as amended: the handlers enforce no transition order at all — each of
the deposit, claim and cancel handlers overwrites the stored status with its
own fixed target status whenever a record with the id exists, whatever the
current status (terminal statuses included); only record creation is
guarded, an `EscrowInitialized` event for an existing id leaving the store
unchanged. -/
theorem C2_unconditional_status_overwrite_amended :
    ∀ (s : Store) (now : Nat) (escrowId buyer seller : String) (amount : Int)
      (dg : String) (r : EscrowRecord) (d : InitEventData),
      getEscrowById escrowId s = some r →
      (getEscrowById escrowId
          (applyEvent (.dep escrowId buyer amount dg) now s).1 =
        some (applyStatusUpdate escrowId "deposited" (some dg) now r) ∧
       (applyStatusUpdate escrowId "deposited" (some dg) now r).status =
        "deposited") ∧
      (getEscrowById escrowId
          (applyEvent (.claim escrowId seller amount dg) now s).1 =
        some (applyStatusUpdate escrowId "completed" (some dg) now r) ∧
       (applyStatusUpdate escrowId "completed" (some dg) now r).status =
        "completed") ∧
      (getEscrowById escrowId
          (applyEvent (.cancel escrowId buyer amount dg) now s).1 =
        some (applyStatusUpdate escrowId "cancelled" (some dg) now r) ∧
       (applyStatusUpdate escrowId "cancelled" (some dg) now r).status =
        "cancelled") ∧
      (d.escrow_id = escrowId → (applyEvent (.init d) now s).1 = s) := by
  intro s now escrowId buyer seller amount dg r d hg
  have hp : (r.escrowId == escrowId) = true :=
    beq_of_getEscrowById_some hg
  refine ⟨⟨?_, ?_⟩, ⟨?_, ?_⟩, ⟨?_, ?_⟩, ?_⟩
  · have h1 : (applyEvent (.dep escrowId buyer amount dg) now s).1 =
        s.map (applyStatusUpdate escrowId "deposited" (some dg) now) := by
      simp [applyEvent, hg, updateEscrowStatus]
    rw [h1, getEscrowById_map_update, hg]
    rfl
  · simp [applyStatusUpdate, hp]
  · have h1 : (applyEvent (.claim escrowId seller amount dg) now s).1 =
        s.map (applyStatusUpdate escrowId "completed" (some dg) now) := by
      simp [applyEvent, hg, updateEscrowStatus]
    rw [h1, getEscrowById_map_update, hg]
    rfl
  · simp [applyStatusUpdate, hp]
  · have h1 : (applyEvent (.cancel escrowId buyer amount dg) now s).1 =
        s.map (applyStatusUpdate escrowId "cancelled" (some dg) now) := by
      simp [applyEvent, hg, updateEscrowStatus]
    rw [h1, getEscrowById_map_update, hg]
    rfl
  · simp [applyStatusUpdate, hp]
  · intro hd
    simp [applyEvent, hd, hg]

/-- Witness for the amended C2 at a completed record overwritten by a
deposit event. -/
theorem C2_unconditional_status_overwrite_amended_witness :
    getEscrowById "E1" [sampleRecord "E1" "completed" 5 0] =
      some (sampleRecord "E1" "completed" 5 0) ∧
    getEscrowById "E1"
        (applyEvent (.dep "E1" "0xbuyer" 5 "digest2") 7
          [sampleRecord "E1" "completed" 5 0]).1 =
      some (applyStatusUpdate "E1" "deposited" (some "digest2") 7
        (sampleRecord "E1" "completed" 5 0)) := by
  exact ⟨rfl, ((C2_unconditional_status_overwrite_amended
    [sampleRecord "E1" "completed" 5 0] 7 "E1" "0xbuyer" "0xseller" 5 "digest2"
    (sampleRecord "E1" "completed" 5 0) sampleInit rfl).1).1⟩

/-- Counterexample to C3: the initialized-transition handler takes no
inventory-oracle input at all (`applyEvent` has no oracle parameter because
the source performs no oracle call in `handleEscrowInitialized`), so with an
available oracle reporting a seller item-type count of 5 at that moment the
stored baseline, which is always 0, differs from the fetched count — and
the zero baseline is stored even though the oracle is not unavailable, with
no warning surfaced. -/
theorem C3_zero_baseline_counterexample :
    (getEscrowById sampleInit.escrow_id
      ((applyEvent (.init sampleInit) 0 []).1)).map
      (fun r => r.initialSellerItemCount) = some 0 ∧
    (getEscrowById sampleInit.escrow_id
      ((applyEvent (.init sampleInit) 0 []).1)).map
      (fun r => r.initialBuyerItemCount) = some 0 ∧
    (((0 : Int) == 5) = false) := by
  exact ⟨rfl, rfl, rfl⟩

/-- C3 as amended: at the initialized transition the handler stores zero for
both baseline item counts unconditionally, never consulting the
InventoryOracle and surfacing no warning; the stored baselines are never
overwritten afterwards, `updateEscrowStatus` leaving both fields of every
row unchanged. -/
theorem C3_zero_baseline_amended :
    ∀ (d : InitEventData) (now : Nat) (s : Store),
      getEscrowById d.escrow_id s = none →
      getEscrowById d.escrow_id (applyEvent (.init d) now s).1 =
        some (recordOfInit d now) ∧
      (recordOfInit d now).initialSellerItemCount = 0 ∧
      (recordOfInit d now).initialBuyerItemCount = 0 ∧
      (∀ (escrowId st : String) (txd : Option String) (now2 : Nat)
        (r : EscrowRecord),
        (applyStatusUpdate escrowId st txd now2 r).initialSellerItemCount =
          r.initialSellerItemCount ∧
        (applyStatusUpdate escrowId st txd now2 r).initialBuyerItemCount =
          r.initialBuyerItemCount) := by
  intro d now s h
  refine ⟨?_, rfl, rfl, ?_⟩
  · have hs1 : (applyEvent (.init d) now s).1 = s ++ [recordOfInit d now] := by
      simp [applyEvent, h]
    rw [hs1]
    exact getEscrowById_append_record d now s h
  · intro escrowId st txd now2 r
    unfold applyStatusUpdate
    split <;> exact ⟨rfl, rfl⟩

/-- Witness for the amended C3 at the concrete init payload on an empty
store. -/
theorem C3_zero_baseline_amended_witness :
    getEscrowById sampleInit.escrow_id ([] : Store) = none ∧
    getEscrowById sampleInit.escrow_id
        (applyEvent (.init sampleInit) 0 []).1 =
      some (recordOfInit sampleInit 0) ∧
    (recordOfInit sampleInit 0).initialSellerItemCount = 0 := by
  exact ⟨rfl, (C3_zero_baseline_amended sampleInit 0 [] rfl).1,
    (C3_zero_baseline_amended sampleInit 0 [] rfl).2.1⟩

/-- C4 evaluated at the failing input: the verify-transfer route rejects a
record whose status is "deposited" — the very status the event listener
writes on `PaymentDeposited` — with the invalid-state error, and no
transferred boolean is produced; what the guard actually admits is the
legacy status string "in-progress", under which verification proceeds. -/
theorem C4_verify_rejects_deposited :
    verifyTransfer [sampleRecord "E1" "deposited" 3 0] "E1"
      (sampleFetch 2) (sampleFetch 1) = .invalidState "deposited" ∧
    isVerified (.invalidState "deposited") = false ∧
    verifyTransfer [sampleRecord "E1" "in-progress" 3 0] "E1"
      (sampleFetch 2) (sampleFetch 1) = .verified true 2 1 := by
  exact ⟨rfl, rfl, rfl⟩

/-- Counterexample to C6: the init handler ingests the chain amount
1500000000 (an integer in MIST, the smallest unit) and stores
`priceInSui = 1500000000 / 10^9 = 3/2` — a value in the display
denomination; the stored value lies strictly between 1 and 2, so it is
neither an integer nor the arriving smallest-unit amount — the conversion
happened at ingestion, not on an outward read. -/
theorem C6_price_converted_at_ingestion_counterexample :
    (recordOfInit sampleInit 0).priceInSui = 3 / 2 ∧
    1 < (recordOfInit sampleInit 0).priceInSui ∧
    (recordOfInit sampleInit 0).priceInSui < 2 := by
  have hval : (recordOfInit sampleInit 0).priceInSui = 3 / 2 := by
    norm_num [recordOfInit, sampleInit]
  refine ⟨hval, by rw [hval]; norm_num, by rw [hval]; norm_num⟩

/-- C6 as amended: chain amounts arrive as integers in the smallest unit
(MIST); the handler divides by `10^9` at ingestion and stores the resulting
display-denomination (SUI) value, which can be fractional; the outward
getAllEscrows read returns the stored value as is, applying no further
conversion. -/
theorem C6_price_denomination_amended :
    ∀ (d : InitEventData) (now : Nat),
      (recordOfInit d now).priceInSui = (d.price : ℚ) / 1000000000 ∧
      getAllEscrowsAmount (recordOfInit d now) = (d.price : ℚ) / 1000000000 :=
  fun _ _ => ⟨rfl, rfl⟩

/-- Counterexample to C9: a `PaymentDeposited` event for an id with no
record performs no store write at all (the store stays empty), yet the
handler still emits the notification — so notifications are not emitted
only when the corresponding store write has succeeded. -/
theorem C9_notification_without_write_counterexample :
    applyEvent (.dep "E1" "0xbuyer" 5 "digest2") 3 [] =
      ([], { escrow_id := "E1", buyer := "0xbuyer", seller := "", asset_id := ""
             price := 5, status := "deposited", steam_trade_completed := none
             transaction_digest := some "digest2" }) := rfl

/-- C9 as amended: every processed event emits exactly one notification
after the store work, whether or not a store write occurred; subscriber
callbacks run strictly after the store result is fixed and each is guarded
by its own catch, so a failing callback (a `none` result) neither rolls
back nor prevents the store write and never stops the other callbacks —
the resulting store is independent of the callback list and every callback
is invoked. -/
theorem C9_notify_after_write_amended :
    ∀ (cbs : List (EscrowStatusUpdate → Option Unit)) (ev : ChainEvent)
      (now : Nat) (s : Store),
      (runWithCallbacks cbs ev now s).1 = (applyEvent ev now s).1 ∧
      (runWithCallbacks cbs ev now s).2 =
        cbs.map (fun cb => cb (applyEvent ev now s).2) ∧
      (runWithCallbacks cbs ev now s).2.length = cbs.length := by
  intro cbs ev now s
  refine ⟨rfl, rfl, by simp [runWithCallbacks]⟩

/-- C10: `updateEscrowStatus` maps the row update over the table, the row
update is the identity on every row whose id differs, at most one row can
match (ids being unique), a matching row changes only its status, updatedAt
and transactionDigest fields — the digest kept when no new one is supplied,
replaced when one is — and when no row has the id the call answers false
and leaves every row unchanged. -/
theorem C10_updateEscrowStatus_frame :
    ∀ (s : Store) (escrowId st : String) (txd : Option String) (now : Nat),
      (s.map (fun r => r.escrowId)).Nodup →
      (updateEscrowStatus escrowId st txd now s).1 =
        s.map (applyStatusUpdate escrowId st txd now) ∧
      (∀ r : EscrowRecord, r.escrowId ≠ escrowId →
        applyStatusUpdate escrowId st txd now r = r) ∧
      (∀ r : EscrowRecord, r.escrowId = escrowId →
        (applyStatusUpdate escrowId st txd now r).status = st ∧
        (applyStatusUpdate escrowId st txd now r).updatedAt = now ∧
        (applyStatusUpdate escrowId st txd now r).escrowId = r.escrowId ∧
        (applyStatusUpdate escrowId st txd now r).buyerAddress = r.buyerAddress ∧
        (applyStatusUpdate escrowId st txd now r).sellerAddress = r.sellerAddress ∧
        (applyStatusUpdate escrowId st txd now r).buyerSteamId = r.buyerSteamId ∧
        (applyStatusUpdate escrowId st txd now r).sellerSteamId = r.sellerSteamId ∧
        (applyStatusUpdate escrowId st txd now r).assetId = r.assetId ∧
        (applyStatusUpdate escrowId st txd now r).assetName = r.assetName ∧
        (applyStatusUpdate escrowId st txd now r).assetAmount = r.assetAmount ∧
        (applyStatusUpdate escrowId st txd now r).appId = r.appId ∧
        (applyStatusUpdate escrowId st txd now r).classId = r.classId ∧
        (applyStatusUpdate escrowId st txd now r).instanceId = r.instanceId ∧
        (applyStatusUpdate escrowId st txd now r).tradeUrl = r.tradeUrl ∧
        (applyStatusUpdate escrowId st txd now r).priceInSui = r.priceInSui ∧
        (applyStatusUpdate escrowId st txd now r).initialSellerItemCount =
          r.initialSellerItemCount ∧
        (applyStatusUpdate escrowId st txd now r).initialBuyerItemCount =
          r.initialBuyerItemCount ∧
        (applyStatusUpdate escrowId st txd now r).blobId = r.blobId ∧
        (applyStatusUpdate escrowId st txd now r).createdAt = r.createdAt ∧
        (txd = none →
          (applyStatusUpdate escrowId st txd now r).transactionDigest =
            r.transactionDigest) ∧
        (∀ dgt : String, txd = some dgt →
          (applyStatusUpdate escrowId st txd now r).transactionDigest =
            some dgt)) ∧
      s.countP (fun r => r.escrowId == escrowId) ≤ 1 ∧
      ((∀ r ∈ s, r.escrowId ≠ escrowId) →
        updateEscrowStatus escrowId st txd now s = (s, false)) := by
  intro s escrowId st txd now hnd
  refine ⟨rfl, ?_, ?_, countP_escrowId_le_one s escrowId hnd, ?_⟩
  · intro r hr
    simp [applyStatusUpdate, beq_iff_eq, hr]
  · intro r hr
    have hb : (r.escrowId == escrowId) = true := by simpa using hr
    rcases txd with _ | dgt <;> simp [applyStatusUpdate, hb]
  · intro hall
    have h1 : s.any (fun r => r.escrowId == escrowId) = false := by
      rw [List.any_eq_false]
      intro r hr
      simpa using hall r hr
    have h2 : s.map (applyStatusUpdate escrowId st txd now) = s := by
      conv_rhs => rw [← List.map_id s]
      apply List.map_congr_left
      intro r hr
      simp [applyStatusUpdate, beq_iff_eq, hall r hr]
    unfold updateEscrowStatus
    rw [h1, h2]

/-- Witness for C10: a one-row table with a distinct id is returned
unchanged with result false. -/
theorem C10_updateEscrowStatus_frame_witness :
    (([sampleRecord "E1" "in-progress" 3 0].map (fun r => r.escrowId)).Nodup) ∧
    updateEscrowStatus "E2" "completed" none 5
        [sampleRecord "E1" "in-progress" 3 0] =
      ([sampleRecord "E1" "in-progress" 3 0], false) := by
  refine ⟨by simp, ?_⟩
  exact (C10_updateEscrowStatus_frame [sampleRecord "E1" "in-progress" 3 0]
    "E2" "completed" none 5 (by simp)).2.2.2.2 (by decide)
